import Mathlib

/-!
# Verification of the py-apx node model

Shallow embedding of `apx/node.py`: the integer type-code classifier
(`_getIntegerTypeCode`, `_calcUIntTypeLen`, `_calcIntTypeLen`), the
initial-value deriver (`_deriveInitValueFromAutosarConstant`), and the
`Node` class (type registry, port lists, serialization, mirroring).

Python exceptions are modelled with `Except String`; stateful methods on
`Node` are embedded as functions returning the updated node together with
the `Except` result, so that a method raising after a partial mutation
still reports the mutated node (matching Python semantics where the
exception propagates but prior mutations remain).
-/

namespace PyApx

/-- Fuel-based ceiling base-2 logarithm, used to model
`int(math.ceil(math.log(n, 2)))` from `_calcUIntTypeLen` /
`_calcIntTypeLen` with exact arithmetic.  Uses the recurrence
`ceil(log2 n) = ceil(log2 (ceil(n/2))) + 1` for `n >= 2`. -/
def ceilLog2Aux : Nat → Nat → Nat
  | 0, _ => 0
  | fuel + 1, n => if n ≤ 1 then 0 else ceilLog2Aux fuel ((n + 1) / 2) + 1

/-- `ceilLog2 n = ceil(log2 n)` for `n >= 1` (and `0` at `n = 0`). -/
def ceilLog2 (n : Nat) : Nat := ceilLog2Aux n n

/-- The fuel-based computation agrees with Mathlib's `Nat.clog 2`
whenever the fuel is sufficient. -/
theorem ceilLog2Aux_eq_clog : ∀ fuel n, n ≤ fuel → ceilLog2Aux fuel n = Nat.clog 2 n := by
  intro fuel
  induction fuel with
  | zero =>
    intro n hn
    interval_cases n
    simp [ceilLog2Aux]
  | succ k ih =>
    intro n hn
    by_cases h1 : n ≤ 1
    · simp [ceilLog2Aux, h1, Nat.clog_of_right_le_one h1]
    · have h2 : 2 ≤ n := by omega
      have hlt : (n + 1) / 2 < n := by omega
      have hrec := ih ((n + 1) / 2) (by omega)
      simp only [ceilLog2Aux, if_neg h1, hrec]
      rw [Nat.clog_of_two_le (by norm_num) h2]
      have he : n + 2 - 1 = n + 1 := by omega
      rw [he]

/-- `ceilLog2` is exactly `Nat.clog 2`. -/
theorem ceilLog2_eq_clog (n : Nat) : ceilLog2 n = Nat.clog 2 n :=
  ceilLog2Aux_eq_clog n n le_rfl

/-- `ceilLog2 n ≤ k` iff `n ≤ 2 ^ k`: the width classifier picks the
smallest class whose full range covers `n`. -/
theorem ceilLog2_le_iff (n k : Nat) : ceilLog2 n ≤ k ↔ n ≤ 2 ^ k := by
  rw [ceilLog2_eq_clog, ← Nat.le_pow_iff_clog_le (by norm_num)]

/-- The fields of `autosar.datatype.IntegerDataType` read by
`_getIntegerTypeCode`.  Note: the real Python object has an attribute
named `minVal`; it has no attribute `minval` (the name the source's
signed 8-bit branch reads). -/
structure IntegerDataType where
  minVal : Int
  maxVal : Int
deriving DecidableEq

/-- `_calcUIntTypeLen` (node.py lines 42-49):
`int(math.ceil(math.log(dataType.maxVal, 2)))`.
`none` models the `ValueError` that `math.log` raises on a
non-positive argument. -/
def calcUIntTypeLen (d : IntegerDataType) : Option Nat :=
  if 1 ≤ d.maxVal then some (ceilLog2 d.maxVal.toNat) else none

/-- `_calcIntTypeLen` (node.py lines 51-57):
`int(math.ceil(math.log(abs(dataType.maxVal), 2))) + 1`.
`none` models the `ValueError` that `math.log` raises at `maxVal = 0`. -/
def calcIntTypeLen (d : IntegerDataType) : Option Nat :=
  if d.maxVal ≠ 0 then some (ceilLog2 d.maxVal.natAbs + 1) else none

/-- `_getIntegerTypeCode` (node.py lines 7-40).
`.ok (some s)` is a returned signature, `.ok none` the implicit `None`
return (bit width above 64), `.error` a raised exception.  The signed
8-bit branch (lines 28-32) reads `dataType.minval`, an attribute the
integer type object does not have (it is spelled `minVal` everywhere
else), so that branch always raises `AttributeError`. -/
def getIntegerTypeCode (d : IntegerDataType) : Except String (Option String) :=
  if 0 ≤ d.minVal then
    match calcUIntTypeLen d with
    | none => .error "ValueError: math domain error"
    | some bits =>
      if bits ≤ 8 then
        .ok (some (if 0 < d.minVal ∨ d.maxVal < 255 then
          "C(" ++ toString d.minVal ++ "," ++ toString d.maxVal ++ ")"
        else "C"))
      else if bits ≤ 16 then .ok (some "S")
      else if bits ≤ 32 then .ok (some "L")
      else if bits ≤ 64 then .ok (some "U")
      else .ok none
  else
    match calcIntTypeLen d with
    | none => .error "ValueError: math domain error"
    | some bits =>
      if bits ≤ 8 then .error "AttributeError: minval"
      else if bits ≤ 16 then .ok (some "s")
      else if bits ≤ 32 then .ok (some "l")
      else if bits ≤ 64 then .ok (some "u")
      else .ok none

example : getIntegerTypeCode { minVal := 0, maxVal := 10 } = .ok (some "C(0,10)") := rfl
example : getIntegerTypeCode { minVal := 0, maxVal := 255 } = .ok (some "C") := rfl
example : getIntegerTypeCode { minVal := 0, maxVal := 256 } = .ok (some "C") := rfl
example : getIntegerTypeCode { minVal := 0, maxVal := 257 } = .ok (some "S") := rfl
example : getIntegerTypeCode { minVal := 0, maxVal := 65536 } = .ok (some "S") := rfl
example : getIntegerTypeCode { minVal := 1, maxVal := 255 } = .ok (some "C(1,255)") := rfl
example : getIntegerTypeCode { minVal := -128, maxVal := 127 } = .error "AttributeError: minval" := rfl
example : getIntegerTypeCode { minVal := -32768, maxVal := 32767 } = .ok (some "s") := rfl
example : getIntegerTypeCode { minVal := -1, maxVal := 2147483647 } = .ok (some "l") := rfl

/-! ## Initial-value derivation (node.py lines 129-144) -/

/-- Uppercase hexadecimal digit characters, as produced by Python `%X`. -/
def hexDigitChar (n : Nat) : Char :=
  ['0', '1', '2', '3', '4', '5', '6', '7', '8',
   '9', 'A', 'B', 'C', 'D', 'E', 'F'].getD n '0'

/-- Most-significant-first uppercase hexadecimal digits of `n` (fuel-based). -/
def hexDigitsAux : Nat → Nat → List Char
  | 0, _ => []
  | fuel + 1, n =>
    if n < 16 then [hexDigitChar n]
    else hexDigitsAux fuel (n / 16) ++ [hexDigitChar (n % 16)]

/-- Zero-pad a digit list on the left to at least two characters, as the
`02` width field of `%02X` demands. -/
def padTo2 (ds : List Char) : List Char :=
  if ds.length < 2 then List.replicate (2 - ds.length) '0' ++ ds else ds

/-- Python `"%02X" % n`: uppercase hexadecimal digits of `n`, left-padded
with zeros to at least two characters (node.py line 132, `"0x%02X"`). -/
def pyHexPad2 (n : Nat) : String :=
  String.mk (padTo2 (hexDigitsAux (n + 1) n))

/-- Value of one uppercase hexadecimal digit character; `none` for any
character that is not an uppercase hexadecimal digit. -/
def hexCharVal (c : Char) : Option Nat :=
  if '0' ≤ c ∧ c ≤ '9' then some (c.toNat - '0'.toNat)
  else if 'A' ≤ c ∧ c ≤ 'F' then some (c.toNat - 'A'.toNat + 10)
  else none

def hexValAux : List Char → Nat → Option Nat
  | [], acc => some acc
  | c :: cs, acc =>
    match hexCharVal c with
    | none => none
    | some d => hexValAux cs (16 * acc + d)

/-- Independent uppercase-hexadecimal reader: succeeds exactly on nonempty
strings of uppercase hexadecimal digits, returning their value.  Used to
certify the shape of the emitted hexadecimal literals. -/
def hexVal (s : String) : Option Nat :=
  if s.data.isEmpty then none else hexValAux s.data 0

theorem hexValAux_append_some (l1 l2 : List Char) (acc a : Nat)
    (h : hexValAux l1 acc = some a) : hexValAux (l1 ++ l2) acc = hexValAux l2 a := by
  induction l1 generalizing acc with
  | nil =>
    simp only [hexValAux, Option.some.injEq] at h
    rw [List.nil_append, h]
  | cons c cs ih =>
    simp only [List.cons_append, hexValAux] at h ⊢
    cases hc : hexCharVal c with
    | none => rw [hc] at h; exact absurd h (by simp)
    | some d => rw [hc] at h; exact ih (16 * acc + d) h

theorem hexCharVal_hexDigitChar : ∀ n < 16, hexCharVal (hexDigitChar n) = some n := by decide

theorem hexValAux_hexDigitsAux :
    ∀ fuel n acc, n < fuel →
      hexValAux (hexDigitsAux fuel n) acc =
        some (acc * 16 ^ (hexDigitsAux fuel n).length + n) := by
  intro fuel
  induction fuel with
  | zero => intro n acc h; omega
  | succ k ih =>
    intro n acc h
    by_cases h16 : n < 16
    · simp only [hexDigitsAux, if_pos h16, hexValAux,
        hexCharVal_hexDigitChar n h16, List.length_singleton, pow_one]
      congr 1
      ring
    · have hdiv : n / 16 < k := by omega
      have hmod : n % 16 < 16 := Nat.mod_lt n (by norm_num)
      simp only [hexDigitsAux, if_neg h16]
      rw [hexValAux_append_some _ _ _ _ (ih (n / 16) acc hdiv)]
      simp only [hexValAux, hexCharVal_hexDigitChar (n % 16) hmod,
        List.length_append, List.length_singleton]
      congr 1
      have hpow : acc * 16 ^ ((hexDigitsAux k (n / 16)).length + 1) =
          16 * (acc * 16 ^ (hexDigitsAux k (n / 16)).length) := by ring
      rw [hpow]
      omega

theorem hexValAux_replicate_zero (k : Nat) (ds : List Char) :
    hexValAux (List.replicate k '0' ++ ds) 0 = hexValAux ds 0 := by
  induction k with
  | zero => rfl
  | succ m ih =>
    simp only [List.replicate, List.cons_append, hexValAux]
    have h0 : hexCharVal '0' = some 0 := by decide
    rw [h0]
    exact ih

theorem hexValAux_padTo2 (ds : List Char) :
    hexValAux (padTo2 ds) 0 = hexValAux ds 0 := by
  unfold padTo2
  split
  · exact hexValAux_replicate_zero _ ds
  · rfl

theorem padTo2_length (ds : List Char) : 2 ≤ (padTo2 ds).length := by
  unfold padTo2
  split
  · simp only [List.length_append, List.length_replicate]
    omega
  · omega

/-- Reading back `pyHexPad2 n` as uppercase hexadecimal recovers `n`:
the emitted literal really is the uppercase hexadecimal form of `n`. -/
theorem hexVal_pyHexPad2 (n : Nat) : hexVal (pyHexPad2 n) = some n := by
  have hv := hexValAux_hexDigitsAux (n + 1) n 0 (Nat.lt_succ_self n)
  rw [Nat.zero_mul, Nat.zero_add] at hv
  have hlen := padTo2_length (hexDigitsAux (n + 1) n)
  have hkey : hexValAux (padTo2 (hexDigitsAux (n + 1) n)) 0 = some n := by
    rw [hexValAux_padTo2]
    exact hv
  cases hh : padTo2 (hexDigitsAux (n + 1) n) with
  | nil => rw [hh] at hlen; simp at hlen
  | cons c cs =>
    rw [hh] at hkey
    unfold pyHexPad2
    rw [hh]
    exact hkey

/-- Padding to two characters: the emitted literal body has at least two
characters, as `%02X` demands. -/
theorem pyHexPad2_length (n : Nat) : 2 ≤ (pyHexPad2 n).length := by
  unfold pyHexPad2
  show 2 ≤ (padTo2 (hexDigitsAux (n + 1) n)).length
  exact padTo2_length _

/-- The `autosar.constant` value kinds consumed by
`_deriveInitValueFromAutosarConstant`: `IntegerValue`, `StringValue`,
`RecordValue`, `ArrayValue`, and any other kind (which raises
`NotImplementedError`). -/
inductive ConstVal where
  | intVal (v : Int)
  | strVal (s : String)
  | recordVal (elems : List ConstVal)
  | arrayVal (elems : List ConstVal)
  | otherVal

mutual
/-- `_deriveInitValueFromAutosarConstant` (node.py lines 129-144). -/
def deriveInitValue : ConstVal → Except String String
  | .intVal v => if 255 < v then .ok ("0x" ++ pyHexPad2 v.toNat) else .ok (toString v)
  | .strVal s => .ok ("\"" ++ s ++ "\"")
  | .recordVal elems =>
    match deriveInitValueList elems with
    | .error e => .error e
    | .ok parts => .ok ("\x7b" ++ String.intercalate "," parts ++ "\x7d")
  | .arrayVal elems =>
    match deriveInitValueList elems with
    | .error e => .error e
    | .ok parts => .ok ("\x7b" ++ String.intercalate "," parts ++ "\x7d")
  | .otherVal => .error "NotImplementedError"

/-- The comprehension `[self._deriveInitValueFromAutosarConstant(x) for x
in item.elements]`, with the first raised exception propagating. -/
def deriveInitValueList : List ConstVal → Except String (List String)
  | [] => .ok []
  | c :: cs =>
    match deriveInitValue c with
    | .error e => .error e
    | .ok s =>
      match deriveInitValueList cs with
      | .error e => .error e
      | .ok rest => .ok (s :: rest)
end

example : deriveInitValue (.intVal 255) = .ok "255" := by
  simp [deriveInitValue]; rfl
example : deriveInitValue (.intVal 256) = .ok "0x100" := by
  simp [deriveInitValue]; rfl
example : deriveInitValue (.recordVal [.intVal 1, .strVal "a"]) = .ok "\x7b1,\"a\"\x7d" := by
  simp [deriveInitValue, deriveInitValueList]; rfl

/-! ## The Node data model (node.py lines 59-306) -/

/-- A data-signature value carried by types and ports.  `concrete` is an
inline signature text (e.g. `C(0,10)`); `refId` / `refName` are the type
reference forms `T[id]` / `T[name]` of the signature grammar. -/
inductive Dsg where
  | concrete (text : String)
  | refId (i : Nat)
  | refName (n : String)
deriving DecidableEq

/-- Textual form of a data signature, as interpolated by the `__str__`
methods. -/
def Dsg.text : Dsg → String
  | .concrete s => s
  | .refId i => "T[" ++ toString i ++ "]"
  | .refName n => "T[" ++ n ++ "]"

/-- `port.dsg.dataElement.isReference` (node.py lines 228, 235, 304). -/
def Dsg.isReference : Dsg → Bool
  | .concrete _ => false
  | .refId _ => true
  | .refName _ => true

/-- An APX data type held by a node: a name, a data signature, an
optional attribute string, and the integer `id` assigned at insertion. -/
structure DataType where
  name : String
  dsg : Dsg
  attr : Option String
  id : Nat
deriving DecidableEq

/-- An APX port record: name, data signature, optional attribute string,
and the `id` attribute that `add_require_port` / `add_provide_port`
assign dynamically.  `none` models a Python port object on which the
`id` attribute was never set. -/
structure ApxPort where
  name : String
  dsg : Dsg
  attr : Option String
  id : Option Nat
deriving DecidableEq

/-- `apx.Node.__init__` state (node.py lines 76-81): name, ordered type
sequence, the two port lists, and the name-to-type dictionary (modelled
as an association list whose most recent binding is consed in front, so
`List.lookup` sees exactly what the Python dictionary would). -/
structure Node where
  name : Option String
  dataTypes : List DataType
  requirePorts : List ApxPort
  providePorts : List ApxPort
  dataTypeMap : List (String × DataType)
deriving DecidableEq

/-- Modelled from the spec: `apx.DataSignature.resolve_data_element` and
`Port.resolve_type` live in `apx/base.py`, which is not under `src/`.
Per spec section 4.3, a type-name reference is resolved against the
owning node's registry, failing when the name is absent; an id reference
must designate a valid index; resolving an already-resolved (concrete)
signature is a no-op. -/
def resolveDsg (d : Dsg) (types : List DataType) : Except String Dsg :=
  match d with
  | .concrete s => .ok (.concrete s)
  | .refId i => if i < types.length then .ok (.refId i) else .error "invalid type reference"
  | .refName n =>
    match types.find? (fun t => t.name == n) with
    | some t => .ok (.refId t.id)
    | none => .error "invalid type reference"

/-- The view of a foreign (`autosar`) data type consumed by
`_updateDataType`: its name, and the signature text plus attribute that
`apx.AutosarDataType(ws, dataType, self)` computes from it.  The integer
signature computation itself is embedded above as `getIntegerTypeCode`;
here it enters as precomputed data because `_updateDataType` only builds
and registers the record. -/
structure ForeignDataType where
  name : String
  sig : String
  attr : Option String
deriving DecidableEq

/-- The port interface referenced by a foreign port, as classified by
`_updateDataType` (node.py lines 95-96): a sender-receiver interface
with its data elements, or anything else (including a failed workspace
lookup, for which the `isinstance` test is likewise false). -/
inductive PortInterface where
  | senderReceiver (dataElements : List ForeignDataType)
  | nonSR
deriving DecidableEq

/-- `apx.AutosarDataType(ws, dataType, self)` as built at node.py
line 101; the id is overwritten right after construction. -/
def buildDataType (ft : ForeignDataType) : DataType :=
  { name := ft.name, dsg := .concrete ft.sig, attr := ft.attr, id := 0 }

/-- `Node._updateDataType` (node.py lines 94-113).  Returns the updated
node together with the found or created type (`some`), the implicit
`None` return (non-sender-receiver interface, or zero data elements), or
the `NotImplementedError` raised for more than one data element. -/
def updateDataType (node : Node) (intf : PortInterface) :
    Node × Except String (Option DataType) :=
  match intf with
  | .nonSR => (node, .ok none)
  | .senderReceiver [] => (node, .ok none)
  | .senderReceiver [ft] =>
    match List.lookup ft.name node.dataTypeMap with
    | none =>
      let item := { buildDataType ft with id := node.dataTypes.length }
      ({ node with
          dataTypeMap := (ft.name, item) :: node.dataTypeMap,
          dataTypes := node.dataTypes ++ [item] },
       .ok (some item))
    | some item => (node, .ok (some item))
  | .senderReceiver _ =>
    (node, .error "SenderReceiverInterface with more than 1 element not supported")

/-- The result of `ws.find(comspec.initValueRef)`: the referenced
constant's value (a `Constant` wrapper is unwrapped to `.value` at
node.py line 125), or a dangling reference, for which node.py line 123
raises `ValueError`. -/
inductive InitValueRef where
  | value (c : ConstVal)
  | dangling

/-- One entry of `port.comspec`: a `DataElementComSpec` with its optional
init value reference, or a com-spec of any other kind. -/
inductive ComSpec where
  | dataElem (initValueRef : Option InitValueRef)
  | otherSpec

/-- Direction class of a foreign port, as tested by the `isinstance`
chain at node.py lines 171-178. -/
inductive ForeignPortKind where
  | require
  | provide
  | otherKind
deriving DecidableEq

/-- A foreign (`autosar`) port as consumed by `add_autosar_port`: name,
direction class, referenced port interface, and com-spec list. -/
structure ForeignPort where
  name : String
  kind : ForeignPortKind
  interface : PortInterface
  comspec : List ComSpec

/-- `Node._calcAttributeFromAutosarPort` (node.py lines 115-127). -/
def calcAttributeFromAutosarPort (p : ForeignPort) : Except String (Option String) :=
  match p.comspec with
  | [ComSpec.dataElem r] =>
    match r with
    | none => .ok none
    | some .dangling => .error "invalid init value reference"
    | some (.value c) =>
      match deriveInitValue c with
      | .error e => .error e
      | .ok s => .ok (some ("=" ++ s))
  | _ => .ok none

/-- `Node.add_require_port` (node.py lines 226-231): assign the next
sequential id, resolve a reference signature against the node's types
(an exception leaves the node unchanged), and append. -/
def addRequirePort (node : Node) (p : ApxPort) : Node × Except String ApxPort :=
  let p1 := { p with id := some node.requirePorts.length }
  if p1.dsg.isReference then
    match resolveDsg p1.dsg node.dataTypes with
    | .error e => (node, .error e)
    | .ok d =>
      let p2 := { p1 with dsg := d }
      ({ node with requirePorts := node.requirePorts ++ [p2] }, .ok p2)
  else
    ({ node with requirePorts := node.requirePorts ++ [p1] }, .ok p1)

/-- `Node.add_provide_port` (node.py lines 233-238). -/
def addProvidePort (node : Node) (p : ApxPort) : Node × Except String ApxPort :=
  let p1 := { p with id := some node.providePorts.length }
  if p1.dsg.isReference then
    match resolveDsg p1.dsg node.dataTypes with
    | .error e => (node, .error e)
    | .ok d =>
      let p2 := { p1 with dsg := d }
      ({ node with providePorts := node.providePorts ++ [p2] }, .ok p2)
  else
    ({ node with providePorts := node.providePorts ++ [p1] }, .ok p1)

/-- `Node.add_type` (node.py lines 216-224): reject an existing name with
`ValueError`, otherwise assign `id = len(dataTypes)`, resolve the
signature, index by name and append. -/
def addType (node : Node) (dt : DataType) : Node × Except String DataType :=
  match List.lookup dt.name node.dataTypeMap with
  | some _ => (node, .error ("Data type with name " ++ dt.name ++ " already exists"))
  | none =>
    let dt1 := { dt with id := node.dataTypes.length }
    match resolveDsg dt1.dsg node.dataTypes with
    | .error e => (node, .error e)
    | .ok d =>
      let dt2 := { dt1 with dsg := d }
      ({ node with
          dataTypeMap := (dt2.name, dt2) :: node.dataTypeMap,
          dataTypes := node.dataTypes ++ [dt2] },
       .ok dt2)

/-- `Node.add_autosar_port` (node.py lines 161-178): register or reuse
the data type, and when one was produced, build the APX port with a
`T[id]` reference signature and the derived attribute, then append it to
the matching list.  When `_updateDataType` yields `None` the function
falls off its end, adding nothing. -/
def addAutosarPort (node : Node) (p : ForeignPort) : Node × Except String (Option ApxPort) :=
  match updateDataType node p.interface with
  | (node1, .error e) => (node1, .error e)
  | (node1, .ok none) => (node1, .ok none)
  | (node1, .ok (some dt)) =>
    match p.kind with
    | .require =>
      match calcAttributeFromAutosarPort p with
      | .error e => (node1, .error e)
      | .ok attr =>
        match addRequirePort node1 { name := p.name, dsg := .refId dt.id, attr := attr, id := none } with
        | (node2, .error e) => (node2, .error e)
        | (node2, .ok port) => (node2, .ok (some port))
    | .provide =>
      match calcAttributeFromAutosarPort p with
      | .error e => (node1, .error e)
      | .ok attr =>
        match addProvidePort node1 { name := p.name, dsg := .refId dt.id, attr := attr, id := none } with
        | (node2, .error e) => (node2, .error e)
        | (node2, .ok port) => (node2, .ok (some port))
    | .otherKind => (node1, .error "invalid type")

/-- `AutosarDataType.__str__` (node.py lines 360-364): `T"name"dsg`,
with `:attr` appended when the attribute is present. -/
def dataTypeStr (t : DataType) : String :=
  match t.attr with
  | some a => "T\"" ++ t.name ++ "\"" ++ t.dsg.text ++ ":" ++ a
  | none => "T\"" ++ t.name ++ "\"" ++ t.dsg.text

/-- `str(port)` for provide ports (node.py lines 339-343). -/
def provideStr (p : ApxPort) : String :=
  match p.attr with
  | some a => "P\"" ++ p.name ++ "\"" ++ p.dsg.text ++ ":" ++ a
  | none => "P\"" ++ p.name ++ "\"" ++ p.dsg.text

/-- `str(port)` for require ports (node.py lines 322-326). -/
def requireStr (p : ApxPort) : String :=
  match p.attr with
  | some a => "R\"" ++ p.name ++ "\"" ++ p.dsg.text ++ ":" ++ a
  | none => "R\"" ++ p.name ++ "\"" ++ p.dsg.text

/-- Python `'N"%s"' % self.name`: a `None` name prints as the string
`None` (see the doctest at node.py line 72). -/
def headerStr (node : Node) : String :=
  "N\"" ++ (match node.name with | some s => s | none => "None") ++ "\""

/-- `Node.lines` (node.py lines 252-263): start from the header line and
`lines.append(...)` one line per entity in three successive loops. -/
def nodeLines (node : Node) : List String :=
  let l0 := [headerStr node]
  let l1 := node.dataTypes.foldl (fun acc t => acc ++ [dataTypeStr t]) l0
  let l2 := node.providePorts.foldl (fun acc p => acc ++ [provideStr p]) l1
  node.requirePorts.foldl (fun acc p => acc ++ [requireStr p]) l2

/-- `Node.write` (node.py lines 240-250): the sequence of lines printed
to `fp`, one `print(...)` per entity, in the same three loops. -/
def nodeWrite (node : Node) : List String :=
  let l0 := [headerStr node]
  let l1 := node.dataTypes.foldl (fun acc t => acc ++ [dataTypeStr t]) l0
  let l2 := node.providePorts.foldl (fun acc p => acc ++ [provideStr p]) l1
  node.requirePorts.foldl (fun acc p => acc ++ [requireStr p]) l2

/-- `AutosarRequirePort.mirror` / `AutosarProvidePort.mirror` (node.py
lines 328-331 and 345-348): a fresh port of the opposite direction
carrying the same name, signature and attribute; the fresh object has no
`id` attribute. -/
def mirrorPort (p : ApxPort) : ApxPort :=
  { name := p.name, dsg := p.dsg, attr := p.attr, id := none }

/-- `Node.mirror` (node.py lines 265-277).  The port lists are assigned
directly (not via `add_require_port` / `add_provide_port`), the type
list is deep-copied (a value copy here; object identity is treated in
the store model below), and the name dictionary is rebuilt by looping
over the copied types. -/
def mirrorNode (node : Node) (newName : Option String) : Node :=
  { name := match newName with | none => node.name | some s => some s,
    dataTypes := node.dataTypes,
    requirePorts := node.providePorts.map mirrorPort,
    providePorts := node.requirePorts.map mirrorPort,
    dataTypeMap := node.dataTypes.foldl (fun m t => (t.name, t) :: m) [] }

/-- Ids in a type sequence equal their positions, counting from `k`. -/
def idsOkFrom : List DataType → Nat → Bool
  | [], _ => true
  | t :: ts, k => t.id == k && idsOkFrom ts (k + 1)

/-- Registry invariant: ids are dense insertion positions and the name
lookup table maps each name to the very entry stored at that id. -/
def registryOk (node : Node) : Bool :=
  idsOkFrom node.dataTypes 0 &&
  node.dataTypeMap.all fun p =>
    p.2.name == p.1 && (node.dataTypes[p.2.id]? == some p.2)

/-! ## Object-identity store model for deep-copy independence

`copy.deepcopy` at node.py line 272 matters only through Python object
identity: the mirror's type objects must be fresh, so that mutating a
type through one node is invisible through the other.  To state this,
type objects live in an explicit store (a list of `DataType` values
indexed by address) and a node holds addresses; `deepcopy` allocates
fresh addresses carrying equal values. -/

def defaultDataType : DataType := { name := "", dsg := .concrete "", attr := none, id := 0 }

/-- A node whose type registry is held by address in an external store.
Ports stay plain values: mirroring builds fresh port objects anyway. -/
structure StoreNode where
  name : Option String
  dataTypes : List Nat
  requirePorts : List ApxPort
  providePorts : List ApxPort
  dataTypeMap : List (String × Nat)
deriving DecidableEq

/-- Dereference a node's type sequence in a store. -/
def typesView (store : List DataType) (n : StoreNode) : List DataType :=
  n.dataTypes.map fun a => store.getD a defaultDataType

/-- `copy.deepcopy(self.dataTypes)`: append fresh copies of the
addressed values to the store; the copies live at the fresh addresses
`store.length, store.length+1, ...`. -/
def deepcopyTypes (store : List DataType) (addrs : List Nat) : List DataType × List Nat :=
  (store ++ addrs.map (fun a => store.getD a defaultDataType),
   List.range' store.length addrs.length)

/-- `Node.mirror` (node.py lines 265-277) over the store model: deep-copy
the type list, swap the port lists through `mirrorPort`, and rebuild the
name dictionary by looping over the copied types. -/
def mirrorStoreNode (store : List DataType) (n : StoreNode) (newName : Option String) :
    List DataType × StoreNode :=
  let store1 := (deepcopyTypes store n.dataTypes).1
  let addrs1 := (deepcopyTypes store n.dataTypes).2
  (store1,
   { name := match newName with | none => n.name | some s => some s,
     dataTypes := addrs1,
     requirePorts := n.providePorts.map mirrorPort,
     providePorts := n.requirePorts.map mirrorPort,
     dataTypeMap := addrs1.foldl
       (fun m a => ((store1.getD a defaultDataType).name, a) :: m) [] })

/-- Mutating one type object in place. -/
def setType (store : List DataType) (a : Nat) (t : DataType) : List DataType :=
  store.set a t

theorem range'_map_getD_append (d : DataType) :
    ∀ (xs pre : List DataType),
      (List.range' pre.length xs.length).map (fun a => (pre ++ xs).getD a d) = xs := by
  intro xs
  induction xs with
  | nil => intro pre; rfl
  | cons x rest ih =>
    intro pre
    have hhead : (pre ++ x :: rest).getD pre.length d = x := by
      rw [List.getD_eq_getElem?_getD, List.getElem?_append_right le_rfl]
      simp
    have hassoc : pre ++ x :: rest = (pre ++ [x]) ++ rest := by simp
    have hlen : pre.length + 1 = (pre ++ [x]).length := by simp
    calc (List.range' pre.length (x :: rest).length).map (fun a => (pre ++ x :: rest).getD a d)
        = (pre ++ x :: rest).getD pre.length d ::
            (List.range' (pre.length + 1) rest.length).map
              (fun a => (pre ++ x :: rest).getD a d) := by
          simp [List.range'_succ]
      _ = x :: rest := by
          rw [hhead, hassoc, hlen, ih (pre ++ [x])]

/-! ## Claim C1: unsigned integer width classification -/

/-- C1 counterexample: at `minVal = 0, maxVal = 256` the required bit
width `ceil(log2 256) = 8` selects the 8-bit class, and the declared
range is not the full `[0,255]` span, so the claim demands the ranged
form `C(0,256)`; the code emits the bare `C`, because its threshold at
node.py line 16 is `maxVal < 255`, not `maxVal != 255`. -/
theorem c1_counterexample :
    getIntegerTypeCode { minVal := 0, maxVal := 256 } = .ok (some "C") ∧
    ceilLog2 256 ≤ 8 ∧
    ¬((0 : Int) = 0 ∧ (256 : Int) = 255) ∧
    "C" ≠ "C(0,256)" :=
  ⟨rfl, by decide, by decide, by decide⟩

/-- Dispatch lemma: in the unsigned domain with a computed bit width,
`_getIntegerTypeCode` reduces to its width comparison chain. -/
theorem getIntegerTypeCode_unsigned (d : IntegerDataType) (h0 : 0 ≤ d.minVal)
    (bits : Nat) (hc : calcUIntTypeLen d = some bits) :
    getIntegerTypeCode d =
      (if bits ≤ 8 then
        .ok (some (if 0 < d.minVal ∨ d.maxVal < 255 then
          "C(" ++ toString d.minVal ++ "," ++ toString d.maxVal ++ ")" else "C"))
      else if bits ≤ 16 then .ok (some "S")
      else if bits ≤ 32 then .ok (some "L")
      else if bits ≤ 64 then .ok (some "U")
      else .ok none) := by
  unfold getIntegerTypeCode
  rw [if_pos h0, hc]

/-- Dispatch lemma: in the signed domain with a computed bit width,
`_getIntegerTypeCode` reduces to its width comparison chain. -/
theorem getIntegerTypeCode_signed (d : IntegerDataType) (h0 : ¬ 0 ≤ d.minVal)
    (bits : Nat) (hc : calcIntTypeLen d = some bits) :
    getIntegerTypeCode d =
      (if bits ≤ 8 then .error "AttributeError: minval"
      else if bits ≤ 16 then .ok (some "s")
      else if bits ≤ 32 then .ok (some "l")
      else if bits ≤ 64 then .ok (some "u")
      else .ok none) := by
  unfold getIntegerTypeCode
  rw [if_neg h0, hc]

/-- C1 (amended): for every foreign integer type with `0 ≤ minVal` and
`1 ≤ maxVal`, the signature grammar maps the required bit width
`ceil(log2 maxVal)` to the smallest covering class — `C` for
`maxVal ≤ 2^8`, `S` up to `2^16`, `L` up to `2^32`, `U` up to `2^64`
(in particular `maxVal = 255` does not promote to 16-bit) — and in the
8-bit case the ranged form `C(minVal,maxVal)` is emitted if and only if
`minVal > 0` or `maxVal < 255`.  That condition agrees with "the range
is not the full `[0,255]` span" except at `maxVal = 256`, where the
bare `C` is emitted. -/
theorem c1_unsigned_width_classes (d : IntegerDataType)
    (h0 : 0 ≤ d.minVal) (h1 : 1 ≤ d.maxVal) :
    (d.maxVal ≤ 256 →
      getIntegerTypeCode d =
        .ok (some (if 0 < d.minVal ∨ d.maxVal < 255 then
          "C(" ++ toString d.minVal ++ "," ++ toString d.maxVal ++ ")" else "C"))) ∧
    (256 < d.maxVal → d.maxVal ≤ 65536 → getIntegerTypeCode d = .ok (some "S")) ∧
    (65536 < d.maxVal → d.maxVal ≤ 4294967296 → getIntegerTypeCode d = .ok (some "L")) ∧
    (4294967296 < d.maxVal → d.maxVal ≤ 18446744073709551616 →
      getIntegerTypeCode d = .ok (some "U")) := by
  have hcalc : calcUIntTypeLen d = some (ceilLog2 d.maxVal.toNat) := by
    unfold calcUIntTypeLen
    rw [if_pos h1]
  have hdis := getIntegerTypeCode_unsigned d h0 _ hcalc
  have h8 : ceilLog2 d.maxVal.toNat ≤ 8 ↔ d.maxVal ≤ 256 := by
    rw [ceilLog2_le_iff, show (2 : Nat) ^ 8 = 256 from rfl]; omega
  have h16 : ceilLog2 d.maxVal.toNat ≤ 16 ↔ d.maxVal ≤ 65536 := by
    rw [ceilLog2_le_iff, show (2 : Nat) ^ 16 = 65536 from rfl]; omega
  have h32 : ceilLog2 d.maxVal.toNat ≤ 32 ↔ d.maxVal ≤ 4294967296 := by
    rw [ceilLog2_le_iff, show (2 : Nat) ^ 32 = 4294967296 from rfl]; omega
  have h64 : ceilLog2 d.maxVal.toNat ≤ 64 ↔ d.maxVal ≤ 18446744073709551616 := by
    rw [ceilLog2_le_iff, show (2 : Nat) ^ 64 = 18446744073709551616 from rfl]; omega
  refine ⟨?_, ?_, ?_, ?_⟩
  · intro hle
    rw [hdis, if_pos (h8.mpr hle)]
  · intro hgt hle
    rw [hdis, if_neg (by rw [h8]; omega), if_pos (h16.mpr hle)]
  · intro hgt hle
    rw [hdis, if_neg (by rw [h8]; omega), if_neg (by rw [h16]; omega),
      if_pos (h32.mpr hle)]
  · intro hgt hle
    rw [hdis, if_neg (by rw [h8]; omega), if_neg (by rw [h16]; omega),
      if_neg (by rw [h32]; omega), if_pos (h64.mpr hle)]

/-- C1 witness: concrete instances of the amended theorem. -/
theorem c1_witness :
    getIntegerTypeCode { minVal := 0, maxVal := 255 } = .ok (some "C") ∧
    getIntegerTypeCode { minVal := 0, maxVal := 70000 } = .ok (some "L") := by
  constructor
  · have h := (c1_unsigned_width_classes { minVal := 0, maxVal := 255 }
      (by decide) (by decide)).1 (by decide)
    rw [if_neg (by decide)] at h
    exact h
  · exact (c1_unsigned_width_classes { minVal := 0, maxVal := 70000 }
      (by decide) (by decide)).2.2.1 (by decide) (by decide)

/-! ## Claim C2: signed integer width classification -/

/-- C2 (code bug): every signed-domain integer type that the width
computation places in the 8-bit class (`ceil(log2 |maxVal|) + 1 ≤ 8`)
makes `_getIntegerTypeCode` raise `AttributeError`: node.py lines 29-30
read `dataType.minval`, but the integer type's attribute is spelled
`minVal` — as the very same function's lines 13, 16 and 17 spell it.
No signed 8-bit signature (ranged or bare) can ever be produced, so the
claimed `c` / `c(min,max)` behaviour describes the evident intent
rather than the code. -/
theorem c2_signed_8bit_always_raises (d : IntegerDataType)
    (h : d.minVal < 0) (h1 : 1 ≤ d.maxVal.natAbs)
    (h2 : ceilLog2 d.maxVal.natAbs + 1 ≤ 8) :
    getIntegerTypeCode d = .error "AttributeError: minval" := by
  have hm : ¬ 0 ≤ d.minVal := by omega
  have hcalc : calcIntTypeLen d = some (ceilLog2 d.maxVal.natAbs + 1) := by
    unfold calcIntTypeLen
    rw [if_pos (by omega)]
  rw [getIntegerTypeCode_signed d hm _ hcalc, if_pos h2]

/-- C2 witness: the full signed 8-bit range `[-128, 127]` raises. -/
theorem c2_witness :
    getIntegerTypeCode { minVal := -128, maxVal := 127 } =
      .error "AttributeError: minval" :=
  c2_signed_8bit_always_raises { minVal := -128, maxVal := 127 }
    (by decide) (by decide) (by decide)

/-! ## Claim C3: initial values for integer constants -/

/-- C3 counterexample: Python `"0x%02X" % 256` is `"0x100"` — the `02`
width field pads to a minimum of two digits, it does not zero-extend to
four — so the deriver maps 256 to `"0x100"`, not `"0x0100"`. -/
theorem c3_counterexample :
    deriveInitValue (.intVal 256) = .ok "0x100" ∧ "0x100" ≠ "0x0100" := by
  constructor
  · simp [deriveInitValue]; rfl
  · decide

/-- C3 (amended): an integer constant at most 255 derives to its decimal
literal; one above 255 derives to `0x` followed by its uppercase
hexadecimal digits padded to at least two characters (certified by the
independent reader `hexVal`); in particular 255 derives to `"255"` and
256 to `"0x100"`. -/
theorem c3_init_value_integers :
    (∀ v : Int, v ≤ 255 → deriveInitValue (.intVal v) = .ok (toString v)) ∧
    deriveInitValue (.intVal 255) = .ok "255" ∧
    deriveInitValue (.intVal 256) = .ok "0x100" ∧
    (∀ v : Int, 255 < v →
      deriveInitValue (.intVal v) = .ok ("0x" ++ pyHexPad2 v.toNat) ∧
      hexVal (pyHexPad2 v.toNat) = some v.toNat ∧
      2 ≤ (pyHexPad2 v.toNat).length) := by
  refine ⟨?_, ?_, ?_, ?_⟩
  · intro v hv
    simp only [deriveInitValue]
    rw [if_neg (by omega)]
  · simp [deriveInitValue]; rfl
  · simp [deriveInitValue]; rfl
  · intro v hv
    refine ⟨?_, hexVal_pyHexPad2 _, pyHexPad2_length _⟩
    simp only [deriveInitValue]
    rw [if_pos hv]

/-- C3 witness: a concrete instance above the threshold. -/
theorem c3_witness :
    deriveInitValue (.intVal 1000) = .ok ("0x" ++ pyHexPad2 1000) ∧
    hexVal (pyHexPad2 1000) = some 1000 := by
  have h := c3_init_value_integers.2.2.2 1000 (by norm_num)
  exact ⟨h.1, h.2.1⟩

/-! ## Claim C4: registry deduplication and id assignment -/

/-- The repeated type registration performed by `import_autosar_swc`
(node.py lines 147-157): fold the state effect of `_updateDataType` over
a sequence of foreign single-element sender-receiver interfaces. -/
def importForeignTypes (node : Node) (fts : List ForeignDataType) : Node :=
  fts.foldl (fun n ft => (updateDataType n (.senderReceiver [ft])).1) node

theorem updateDataType_hit (node : Node) (ft : ForeignDataType) (t : DataType)
    (hl : List.lookup ft.name node.dataTypeMap = some t) :
    updateDataType node (.senderReceiver [ft]) = (node, .ok (some t)) := by
  simp only [updateDataType, hl]

theorem updateDataType_miss (node : Node) (ft : ForeignDataType)
    (hl : List.lookup ft.name node.dataTypeMap = none) :
    updateDataType node (.senderReceiver [ft]) =
      ({ node with
          dataTypeMap := (ft.name,
            { name := ft.name, dsg := .concrete ft.sig, attr := ft.attr,
              id := node.dataTypes.length }) :: node.dataTypeMap,
          dataTypes := node.dataTypes ++
            [{ name := ft.name, dsg := .concrete ft.sig, attr := ft.attr,
               id := node.dataTypes.length }] },
       .ok (some { name := ft.name, dsg := .concrete ft.sig, attr := ft.attr,
                   id := node.dataTypes.length })) := by
  simp only [updateDataType, hl, buildDataType]

theorem idsOkFrom_append (ts : List DataType) (t : DataType) (k : Nat) :
    idsOkFrom (ts ++ [t]) k = (idsOkFrom ts k && (t.id == k + ts.length)) := by
  induction ts generalizing k with
  | nil => simp [idsOkFrom]
  | cons x xs ih =>
    simp only [List.cons_append, idsOkFrom, List.append_eq, ih (k + 1), List.length_cons]
    rw [show k + 1 + xs.length = k + (xs.length + 1) from by omega]
    rw [Bool.and_assoc]

theorem registryOk_iff (node : Node) :
    registryOk node = true ↔
      (idsOkFrom node.dataTypes 0 = true ∧
       ∀ p ∈ node.dataTypeMap, p.2.name = p.1 ∧ node.dataTypes[p.2.id]? = some p.2) := by
  unfold registryOk
  simp only [Bool.and_eq_true, List.all_eq_true, beq_iff_eq]

theorem mem_of_lookup_eq_some {β : Type} {l : List (String × β)} {k : String} {v : β}
    (h : List.lookup k l = some v) : (k, v) ∈ l := by
  induction l with
  | nil => simp [List.lookup] at h
  | cons p ps ih =>
    obtain ⟨k1, v1⟩ := p
    rw [List.lookup_cons] at h
    by_cases hk : k == k1
    · rw [hk] at h
      simp only [Option.some.injEq] at h
      subst h
      have : k = k1 := by simpa using hk
      subst this
      exact List.mem_cons_self _ _
    · rw [Bool.not_eq_true] at hk
      rw [hk] at h
      exact List.mem_cons_of_mem _ (ih h)

/-- One registration step preserves the registry invariant and never
touches (in particular never renumbers) the existing entries. -/
theorem updateDataType_preserves (node : Node) (ft : ForeignDataType)
    (hok : registryOk node = true) :
    registryOk (updateDataType node (.senderReceiver [ft])).1 = true ∧
    (updateDataType node (.senderReceiver [ft])).1.dataTypes.take node.dataTypes.length
      = node.dataTypes := by
  cases hl : List.lookup ft.name node.dataTypeMap with
  | some t =>
    rw [updateDataType_hit node ft t hl]
    exact ⟨hok, List.take_length _⟩
  | none =>
    rw [updateDataType_miss node ft hl]
    dsimp only
    obtain ⟨hids, hmap⟩ := (registryOk_iff node).mp hok
    constructor
    · rw [registryOk_iff]
      dsimp only
      constructor
      · rw [idsOkFrom_append]
        simp [hids]
      · intro p hp
        rcases List.mem_cons.mp hp with hp1 | hp2
        · subst hp1
          exact ⟨rfl, List.getElem?_concat_length _ _⟩
        · obtain ⟨hname, hget⟩ := hmap p hp2
          have hlt : p.2.id < node.dataTypes.length := (List.getElem?_eq_some.mp hget).1
          rw [List.getElem?_append_left hlt]
          exact ⟨hname, hget⟩
    · rw [List.take_left]

/-- Folding registrations preserves the invariant and the whole existing
type sequence stays a fixed left segment of the grown sequence. -/
theorem importForeignTypes_ok (node : Node) (fts : List ForeignDataType)
    (hok : registryOk node = true) :
    registryOk (importForeignTypes node fts) = true ∧
    (importForeignTypes node fts).dataTypes.take node.dataTypes.length
      = node.dataTypes := by
  induction fts generalizing node with
  | nil => exact ⟨hok, List.take_length _⟩
  | cons f fs ih =>
    obtain ⟨h1, h2⟩ := updateDataType_preserves node f hok
    obtain ⟨h3, h4⟩ := ih _ h1
    refine ⟨h3, ?_⟩
    have hch : importForeignTypes node (f :: fs) =
        importForeignTypes (updateDataType node (.senderReceiver [f])).1 fs := rfl
    have hlen : node.dataTypes.length ≤
        (updateDataType node (.senderReceiver [f])).1.dataTypes.length := by
      have := congrArg List.length h2
      simp only [List.length_take] at this
      omega
    rw [hch, ← min_eq_left hlen, ← List.take_take, h4, h2]

/-- C4: registering a name already present returns exactly the existing
registry instance (the entry stored at its id) and changes nothing; a
first-time name is built from the foreign type, given id equal to the
current count, appended and indexed by name; the registry invariant (ids
dense and equal to insertion position, lookup pointing at the entry
stored at that id) is preserved by every step, and any sequence of
imports leaves every previously inserted entry — hence every previously
assigned id — untouched. -/
theorem c4_registry_dedup_and_ids (node : Node) (ft : ForeignDataType)
    (hok : registryOk node = true) :
    (∀ t, List.lookup ft.name node.dataTypeMap = some t →
      updateDataType node (.senderReceiver [ft]) = (node, .ok (some t)) ∧
      node.dataTypes[t.id]? = some t ∧ t.name = ft.name) ∧
    (List.lookup ft.name node.dataTypeMap = none →
      updateDataType node (.senderReceiver [ft]) =
        ({ node with
            dataTypeMap := (ft.name,
              { name := ft.name, dsg := .concrete ft.sig, attr := ft.attr,
                id := node.dataTypes.length }) :: node.dataTypeMap,
            dataTypes := node.dataTypes ++
              [{ name := ft.name, dsg := .concrete ft.sig, attr := ft.attr,
                 id := node.dataTypes.length }] },
         .ok (some { name := ft.name, dsg := .concrete ft.sig, attr := ft.attr,
                     id := node.dataTypes.length }))) ∧
    registryOk (updateDataType node (.senderReceiver [ft])).1 = true ∧
    (updateDataType node (.senderReceiver [ft])).1.dataTypes.take node.dataTypes.length
      = node.dataTypes ∧
    (∀ fts : List ForeignDataType,
      registryOk (importForeignTypes node fts) = true ∧
      (importForeignTypes node fts).dataTypes.take node.dataTypes.length
        = node.dataTypes) := by
  obtain ⟨hids, hmap⟩ := (registryOk_iff node).mp hok
  refine ⟨?_, updateDataType_miss node ft, (updateDataType_preserves node ft hok).1,
    (updateDataType_preserves node ft hok).2, fun fts => importForeignTypes_ok node fts hok⟩
  intro t hl
  obtain ⟨hname, hget⟩ := hmap (ft.name, t) (mem_of_lookup_eq_some hl)
  exact ⟨updateDataType_hit node ft t hl, hget, hname⟩

/-- C4 witness: importing the same foreign type name twice from the empty
node keeps the invariant, and the second registration returns the first
entry unchanged. -/
theorem c4_witness :
    registryOk (importForeignTypes
      { name := none, dataTypes := [], requirePorts := [], providePorts := [],
        dataTypeMap := [] }
      [{ name := "T1", sig := "C", attr := none },
       { name := "T1", sig := "C", attr := none }]) = true :=
  (c4_registry_dedup_and_ids
    { name := none, dataTypes := [], requirePorts := [], providePorts := [],
      dataTypeMap := [] }
    { name := "T1", sig := "C", attr := none } rfl).2.2.2.2
    [{ name := "T1", sig := "C", attr := none },
     { name := "T1", sig := "C", attr := none }] |>.1

/-! ## Claim C5: explicit append of a duplicate type name -/

/-- C5: `add_type` on a name already present raises the duplicate-name
`ValueError` and leaves the node (type sequence and lookup table alike)
unchanged; on a fresh name it assigns id equal to the current type
count, resolves the signature, indexes by name and appends. -/
theorem c5_add_type (node : Node) (dt : DataType) :
    (∀ t, List.lookup dt.name node.dataTypeMap = some t →
      addType node dt =
        (node, .error ("Data type with name " ++ dt.name ++ " already exists"))) ∧
    (List.lookup dt.name node.dataTypeMap = none →
      ∀ d, resolveDsg dt.dsg node.dataTypes = .ok d →
        addType node dt =
          ({ node with
              dataTypeMap := (dt.name, { dt with id := node.dataTypes.length, dsg := d })
                :: node.dataTypeMap,
              dataTypes := node.dataTypes ++
                [{ dt with id := node.dataTypes.length, dsg := d }] },
           .ok { dt with id := node.dataTypes.length, dsg := d })) := by
  constructor
  · intro t hl
    simp only [addType, hl]
  · intro hl d hd
    simp only [addType, hl]
    simp only [hd]

def sampleType : DataType := { name := "T0", dsg := .concrete "C", attr := none, id := 0 }

def sampleFresh : DataType := { name := "T1", dsg := .concrete "S", attr := none, id := 99 }

def sampleNode : Node :=
  { name := some "N", dataTypes := [sampleType], requirePorts := [],
    providePorts := [], dataTypeMap := [("T0", sampleType)] }

/-- C5 witness: on a one-type node, re-appending the held name fails with
the duplicate error and the node component is returned unchanged, while
a fresh name is appended with id 1. -/
theorem c5_witness :
    addType sampleNode sampleType =
      (sampleNode, .error ("Data type with name " ++ "T0" ++ " already exists")) ∧
    addType sampleNode sampleFresh =
      ({ sampleNode with
          dataTypeMap := ("T1", { sampleFresh with id := 1 }) :: sampleNode.dataTypeMap,
          dataTypes := sampleNode.dataTypes ++ [{ sampleFresh with id := 1 }] },
       .ok { sampleFresh with id := 1 }) :=
  ⟨(c5_add_type sampleNode sampleType).1 sampleType rfl,
   (c5_add_type sampleNode sampleFresh).2 rfl (.concrete "S") rfl⟩

/-! ## Claim C6: serialization order -/

theorem foldl_append_map {α : Type} (l : List α) (init : List String) (f : α → String) :
    l.foldl (fun acc x => acc ++ [f x]) init = init ++ l.map f := by
  induction l generalizing init with
  | nil => simp
  | cons x xs ih =>
    simp only [List.foldl_cons, List.map_cons, ih (init ++ [f x])]
    simp

/-- C6: both `lines` and `write` emit exactly one node header line, then
one line per data type in registry insertion order, then one line per
provide port in append order, then one line per require port in append
order — nothing else, in that fixed order. -/
theorem c6_serialization_order (node : Node) :
    nodeWrite node = nodeLines node ∧
    nodeLines node =
      headerStr node :: (node.dataTypes.map dataTypeStr
        ++ node.providePorts.map provideStr
        ++ node.requirePorts.map requireStr) := by
  constructor
  · rfl
  · unfold nodeLines
    rw [foldl_append_map, foldl_append_map, foldl_append_map]
    simp [List.append_assoc]

/-! ## Claim C7: mirroring swaps port roles -/

/-- The id-independent content of a port: name, signature, attribute. -/
def portSig (p : ApxPort) : String × Dsg × Option String := (p.name, p.dsg, p.attr)

/-- C7 counterexample: a node holding one provide port whose id was
assigned (as `add_provide_port` assigns it).  Were mirror ids "reassigned
by position in the new lists", the mirrored require port would carry
`id = some 0`; the code's `mirror` assigns the port lists directly,
bypassing `add_require_port` / `add_provide_port`, and `port.mirror()`
creates a fresh object with no id attribute at all. -/
def c7Node : Node :=
  (addProvidePort
    { name := some "N", dataTypes := [], requirePorts := [], providePorts := [],
      dataTypeMap := [] }
    { name := "P1", dsg := .concrete "C", attr := none, id := none }).1

theorem c7_counterexample :
    (c7Node.providePorts.map fun p => p.id) = [some 0] ∧
    ((mirrorNode c7Node none).requirePorts.map fun p => p.id) = [none] ∧
    ([none] : List (Option Nat)) ≠ [some 0] :=
  ⟨rfl, rfl, by decide⟩

/-- C7 (amended): `mirror` produces a node in which every source provide
port appears as a require port and vice versa, preserving each port's
name, signature and initial-value attribute; the mirrored ports carry no
id assignment at all (ids are dropped, not reassigned by position); the
data types are carried over; and applying `mirror` twice restores the
original port directionality and all names, signatures and attributes
(involutive up to the dropped ids). -/
theorem c7_mirror_involution (node : Node) (newName : Option String) :
    ((mirrorNode node newName).requirePorts.map portSig
      = node.providePorts.map portSig) ∧
    ((mirrorNode node newName).providePorts.map portSig
      = node.requirePorts.map portSig) ∧
    (∀ p ∈ (mirrorNode node newName).requirePorts, p.id = none) ∧
    (∀ p ∈ (mirrorNode node newName).providePorts, p.id = none) ∧
    (mirrorNode node newName).dataTypes = node.dataTypes ∧
    ((mirrorNode (mirrorNode node newName) none).requirePorts.map portSig
      = node.requirePorts.map portSig) ∧
    ((mirrorNode (mirrorNode node newName) none).providePorts.map portSig
      = node.providePorts.map portSig) := by
  have hcomp : ∀ l : List ApxPort, (l.map mirrorPort).map portSig = l.map portSig := by
    intro l
    rw [List.map_map]
    exact List.map_congr_left fun p _ => rfl
  have hid : ∀ l : List ApxPort, ∀ p ∈ l.map mirrorPort, p.id = none := by
    intro l p hp
    obtain ⟨q, _, hq⟩ := List.mem_map.mp hp
    rw [← hq]
    rfl
  refine ⟨hcomp _, hcomp _, hid _, hid _, rfl, ?_, ?_⟩
  · show ((node.requirePorts.map mirrorPort).map mirrorPort).map portSig = _
    rw [hcomp, hcomp]
  · show ((node.providePorts.map mirrorPort).map mirrorPort).map portSig = _
    rw [hcomp, hcomp]

/-! ## Claim C8: mirrored nodes are structurally independent -/

theorem mirrorStoreNode_store (store : List DataType) (n : StoreNode) (newName : Option String) :
    (mirrorStoreNode store n newName).1 = store ++ typesView store n := rfl

theorem mirrorStoreNode_addrs (store : List DataType) (n : StoreNode) (newName : Option String) :
    (mirrorStoreNode store n newName).2.dataTypes
      = List.range' store.length n.dataTypes.length := rfl

theorem mirrorStoreNode_map (store : List DataType) (n : StoreNode) (newName : Option String) :
    (mirrorStoreNode store n newName).2.dataTypeMap
      = (List.range' store.length n.dataTypes.length).foldl
          (fun m a => (((store ++ typesView store n).getD a defaultDataType).name, a) :: m)
          [] := rfl

theorem copies_view (store : List DataType) (n : StoreNode) :
    (List.range' store.length n.dataTypes.length).map
      (fun a => (store ++ typesView store n).getD a defaultDataType) = typesView store n := by
  have hl : n.dataTypes.length = (typesView store n).length := (List.length_map _ _).symm
  rw [hl]
  exact range'_map_getD_append defaultDataType (typesView store n) store

theorem foldl_cons_pairs (g : Nat → String) (l : List Nat) (init : List (String × Nat)) :
    l.foldl (fun m a => (g a, a) :: m) init = (l.map fun a => (g a, a)).reverse ++ init := by
  induction l generalizing init with
  | nil => simp
  | cons x xs ih =>
    simp only [List.foldl_cons, List.map_cons, List.reverse_cons, ih ((g x, x) :: init)]
    simp

theorem lookup_of_nodup_keys {l : List (String × Nat)} (hnd : (l.map Prod.fst).Nodup)
    {k : String} {v : Nat} (hm : (k, v) ∈ l) : List.lookup k l = some v := by
  induction l with
  | nil => cases hm
  | cons p ps ih =>
    obtain ⟨k1, v1⟩ := p
    simp only [List.map_cons, List.nodup_cons] at hnd
    rcases List.mem_cons.mp hm with h1 | h2
    · obtain ⟨hk, hv⟩ := Prod.mk.injEq .. ▸ h1
      subst hk
      subst hv
      rw [List.lookup_cons]
      simp
    · have hk : k ≠ k1 := by
        intro he
        subst he
        exact hnd.1 (List.mem_map.mpr ⟨(k, v), h2, rfl⟩)
      rw [List.lookup_cons]
      have hf : (k == k1) = false := by simp [hk]
      rw [hf]
      exact ih hnd.2 h2

/-- C8: mirroring deep-copies the type registry.  In the store model the
mirror's type addresses are all fresh (disjoint from every address the
source node holds), the copies carry equal values, the mirror's
name-to-type lookup maps each copied type's name to the copy itself, and
mutating any type object owned by one of the two nodes never changes
what the other node's registry dereferences to. -/
theorem c8_mirror_deepcopy_independent (store : List DataType) (n : StoreNode)
    (newName : Option String)
    (hwf : ∀ a ∈ n.dataTypes, a < store.length)
    (hnames : ((typesView store n).map DataType.name).Nodup) :
    typesView (mirrorStoreNode store n newName).1 (mirrorStoreNode store n newName).2
      = typesView store n ∧
    typesView (mirrorStoreNode store n newName).1 n = typesView store n ∧
    (∀ a ∈ n.dataTypes, ∀ b ∈ (mirrorStoreNode store n newName).2.dataTypes, a ≠ b) ∧
    (∀ b ∈ (mirrorStoreNode store n newName).2.dataTypes,
      List.lookup ((mirrorStoreNode store n newName).1.getD b defaultDataType).name
        (mirrorStoreNode store n newName).2.dataTypeMap = some b) ∧
    (∀ a ∈ n.dataTypes, ∀ t, typesView (setType (mirrorStoreNode store n newName).1 a t)
        (mirrorStoreNode store n newName).2
      = typesView (mirrorStoreNode store n newName).1 (mirrorStoreNode store n newName).2) ∧
    (∀ b ∈ (mirrorStoreNode store n newName).2.dataTypes, ∀ t,
      typesView (setType (mirrorStoreNode store n newName).1 b t) n
        = typesView (mirrorStoreNode store n newName).1 n) := by
  have hview : typesView (mirrorStoreNode store n newName).1
      (mirrorStoreNode store n newName).2 = typesView store n := by
    show (List.range' store.length n.dataTypes.length).map
      (fun a => (store ++ typesView store n).getD a defaultDataType) = typesView store n
    exact copies_view store n
  have horig : typesView (mirrorStoreNode store n newName).1 n = typesView store n := by
    show n.dataTypes.map (fun a => (store ++ typesView store n).getD a defaultDataType)
      = n.dataTypes.map fun a => store.getD a defaultDataType
    exact List.map_congr_left fun a ha => List.getD_append _ _ _ _ (hwf a ha)
  have hfresh : ∀ a ∈ n.dataTypes, ∀ b ∈ (mirrorStoreNode store n newName).2.dataTypes,
      a ≠ b := by
    intro a ha b hb
    rw [mirrorStoreNode_addrs] at hb
    have hba := (List.mem_range'_1.mp hb).1
    have := hwf a ha
    omega
  refine ⟨hview, horig, hfresh, ?_, ?_, ?_⟩
  · intro b hb
    rw [mirrorStoreNode_addrs] at hb
    rw [mirrorStoreNode_map, mirrorStoreNode_store,
      foldl_cons_pairs (fun a => ((store ++ typesView store n).getD a defaultDataType).name)
        _ [], List.append_nil]
    apply lookup_of_nodup_keys
    · rw [List.map_reverse, List.nodup_reverse, List.map_map]
      have hmm : (List.range' store.length n.dataTypes.length).map
          (Prod.fst ∘ fun a => (((store ++ typesView store n).getD a defaultDataType).name, a))
          = ((List.range' store.length n.dataTypes.length).map
              (fun a => (store ++ typesView store n).getD a defaultDataType)).map
              DataType.name := by
        rw [List.map_map]
        rfl
      rw [hmm, copies_view]
      exact hnames
    · exact List.mem_reverse.mpr (List.mem_map.mpr ⟨b, hb, rfl⟩)
  · intro a ha t
    rw [hview]
    show (mirrorStoreNode store n newName).2.dataTypes.map
        (fun b => (setType (mirrorStoreNode store n newName).1 a t).getD b defaultDataType)
      = typesView store n
    rw [← hview]
    apply List.map_congr_left
    intro b hb
    have hne : a ≠ b := hfresh a ha b hb
    show (List.set (mirrorStoreNode store n newName).1 a t).getD b defaultDataType
      = (mirrorStoreNode store n newName).1.getD b defaultDataType
    rw [List.getD_eq_getElem?_getD, List.getD_eq_getElem?_getD, List.getElem?_set_ne hne]
  · intro b hb t
    apply List.map_congr_left
    intro a ha
    have hne : b ≠ a := (hfresh a ha b hb).symm
    show (List.set (mirrorStoreNode store n newName).1 b t).getD a defaultDataType
      = (mirrorStoreNode store n newName).1.getD a defaultDataType
    rw [List.getD_eq_getElem?_getD, List.getD_eq_getElem?_getD, List.getElem?_set_ne hne]

/-- C8 witness: a concrete two-type node mirrored in a concrete store. -/
theorem c8_witness :
    typesView (mirrorStoreNode [sampleType, sampleFresh]
        { name := some "N", dataTypes := [0, 1], requirePorts := [], providePorts := [],
          dataTypeMap := [("T0", 0), ("T1", 1)] } none).1
      (mirrorStoreNode [sampleType, sampleFresh]
        { name := some "N", dataTypes := [0, 1], requirePorts := [], providePorts := [],
          dataTypeMap := [("T0", 0), ("T1", 1)] } none).2
      = typesView [sampleType, sampleFresh]
        { name := some "N", dataTypes := [0, 1], requirePorts := [], providePorts := [],
          dataTypeMap := [("T0", 0), ("T1", 1)] } :=
  (c8_mirror_deepcopy_independent [sampleType, sampleFresh]
    { name := some "N", dataTypes := [0, 1], requirePorts := [], providePorts := [],
      dataTypeMap := [("T0", 0), ("T1", 1)] } none
    (by decide) (by decide)).1

/-! ## Claim C9: multi-element interfaces are rejected -/

/-- C9: importing a foreign port whose sender-receiver interface exposes
more than one data element raises `NotImplementedError` and leaves the
node unchanged — it is never flattened into a partial signature. -/
theorem c9_multi_element_rejected (node : Node) (p : ForeignPort)
    (e1 e2 : ForeignDataType) (rest : List ForeignDataType)
    (h : p.interface = .senderReceiver (e1 :: e2 :: rest)) :
    addAutosarPort node p =
      (node, .error "SenderReceiverInterface with more than 1 element not supported") := by
  simp only [addAutosarPort, h, updateDataType]

def c9Port : ForeignPort :=
  { name := "Z", kind := .require,
    interface := .senderReceiver
      [{ name := "A", sig := "C", attr := none },
       { name := "B", sig := "C", attr := none }],
    comspec := [] }

/-- C9 witness: a two-element interface is rejected on a concrete node. -/
theorem c9_witness :
    addAutosarPort sampleNode c9Port =
      (sampleNode, .error "SenderReceiverInterface with more than 1 element not supported") :=
  c9_multi_element_rejected sampleNode c9Port
    { name := "A", sig := "C", attr := none }
    { name := "B", sig := "C", attr := none } [] rfl

/-! ## Claim C10: non-sender-receiver and empty interfaces are dropped -/

/-- C10: a foreign port whose interface is not a sender-receiver
interface, or is a sender-receiver interface with zero data elements,
raises nothing and adds nothing: `add_autosar_port` returns the absent
result and the node — type sequence, provide ports and require ports —
is unchanged. -/
theorem c10_silent_drop (node : Node) (p : ForeignPort)
    (h : p.interface = .nonSR ∨ p.interface = .senderReceiver []) :
    addAutosarPort node p = (node, .ok none) := by
  rcases h with h | h
  · simp only [addAutosarPort, h, updateDataType]
  · simp only [addAutosarPort, h, updateDataType]

def c10PortA : ForeignPort :=
  { name := "X", kind := .require, interface := .nonSR, comspec := [] }

def c10PortB : ForeignPort :=
  { name := "Y", kind := .provide, interface := .senderReceiver [], comspec := [] }

/-- C10 witness: both drop shapes on a concrete node. -/
theorem c10_witness :
    addAutosarPort sampleNode c10PortA = (sampleNode, .ok none) ∧
    addAutosarPort sampleNode c10PortB = (sampleNode, .ok none) :=
  ⟨c10_silent_drop sampleNode c10PortA (Or.inl rfl),
   c10_silent_drop sampleNode c10PortB (Or.inr rfl)⟩

end PyApx
